import Mathlib

/-!
Shallow embedding of two source files of the `electron` repository fragment:

* `src/browser/message_box_win.cc` — a native modal message-box dialog
  (class `MessageDialog` and the free function `ShowMessageBox`);
* `src/atom/browser/api/atom_api_power_monitor.cc` — the power-monitor
  binding (`PowerMonitor` constructor/destructor, the power callbacks and
  the static `Create` factory).

Pure computations are translated as Lean functions; the nested message
dispatch loop is modelled as a step function over an explicit dialog state
driven by a list of user-interface events; the `Emit` side effects of the
power monitor are modelled as the list of event names a callback emits.
-/

namespace Electron

/-! ## message_box_win.cc -/

/-- Box type passed to `ShowMessageBox`.  The header `browser/message_box.h`
is not part of this fragment; the type is a C enum, modelled as an opaque
numeric code.  `message_box_win.cc` never reads it. -/
inductive MessageBoxType where
  | typeCode (code : Nat)
deriving DecidableEq

/-- ASCII lowercasing of a single character, as done by
`base::LowerCaseEqualsASCII` (`base/string_util.h`): characters between
`A` and `Z` are shifted into `a`..`z`, all others kept. -/
def toLowerASCII (c : Char) : Char :=
  if 'A' ≤ c ∧ c ≤ 'Z' then Char.ofNat (c.toNat + 32) else c

/-- `LowerCaseEqualsASCII(str, lowercase)`: the string `s`, lowercased
ASCII-wise, equals the (already lowercase) string `t`. -/
def lowerCaseEqualsASCII (s t : String) : Bool :=
  s.data.map toLowerASCII == t.data

/-- One `views::LabelButton` created by the `MessageDialog` constructor:
its `tag` (set to the loop index `i` by `button->set_tag(i)`), its label,
and whether `SetIsDefault(true)` was called on it. -/
structure LabelButton where
  tag : Nat
  label : String
  is_default : Bool
deriving DecidableEq

/-- The constructor loop `for (size_t i = 0; i < buttons.size(); ++i)`
building `buttons_`, with `i` threaded as the starting tag. -/
def mkButtonsAux (n : Nat) : List String → List LabelButton
  | [] => []
  | l :: ls => ⟨n, l, false⟩ :: mkButtonsAux (n + 1) ls

/-- The `buttons_` vector right after the constructor loop. -/
def mkButtons (buttons : List String) : List LabelButton :=
  mkButtonsAux 0 buttons

/-- `buttons_` after `buttons_[0]->SetIsDefault(true)`.  When the input
list is empty that access is out of bounds (the constructor guards it by
`DCHECK(buttons.size() > 0)`); the empty list is returned unchanged here
and `showMessageBox` treats that case as undefined behaviour. -/
def dialogButtons (buttons : List String) : List LabelButton :=
  match mkButtons buttons with
  | [] => []
  | b :: rest => ⟨b.tag, b.label, true⟩ :: rest

/-- The `DCHECK(buttons.size() > 0)` at the top of the constructor. -/
def messageDialogDCheck (buttons : List String) : Bool :=
  decide (0 < buttons.length)

/-- The mutable fields of `MessageDialog` that determine the result:
`should_close_` and `result_` (a C `int`, `-1` meaning "no button
pressed"). -/
structure DialogState where
  should_close_ : Bool
  result_ : Int
deriving DecidableEq

/-- Member initialisers of the constructor:
`should_close_(false), result_(-1)`. -/
def dialogInit : DialogState :=
  ⟨false, -1⟩

/-- `MessageDialog::ButtonPressed`: `result_ = sender->tag();` (the call
`widget_->Close()` that follows is modelled at the event level, where it
triggers `WindowClosing`). -/
def buttonPressed (s : DialogState) (sender : LabelButton) : DialogState :=
  { s with result_ := (sender.tag : Int) }

/-- `MessageDialog::WindowClosing`: `should_close_ = true;`. -/
def windowClosing (s : DialogState) : DialogState :=
  { s with should_close_ := true }

/-- `MessageDialog::Dispatch` return value: `return !should_close_;`
(`true` means the nested loop keeps running). -/
def dispatch (s : DialogState) : Bool :=
  !s.should_close_

/-- A native event delivered to the nested loop: a click on button number
`i` of the dialog, the user closing the window, or any event that touches
neither. -/
inductive Event where
  | pressButton (i : Nat)
  | closeWindow
  | other
deriving DecidableEq

/-- Whether an event makes the widget close — a press of an existing
button (its handler ends in `widget_->Close()`, firing `WindowClosing`)
or the user closing the window (firing `WindowClosing` directly). -/
def isClosingEvent (btns : List LabelButton) : Event → Bool
  | Event.pressButton i => (btns.get? i).isSome
  | Event.closeWindow => true
  | Event.other => false

/-- Effect of dispatching one native event on the dialog state.  A click
on button `i` runs `ButtonPressed` with that button as sender and then
`WindowClosing` (via `widget_->Close()`); closing the window runs
`WindowClosing`; other events leave the state unchanged. -/
def handleEvent (btns : List LabelButton) (s : DialogState) : Event → DialogState
  | Event.pressButton i =>
      match btns.get? i with
      | some b => windowClosing (buttonPressed s b)
      | none => s
  | Event.closeWindow => windowClosing s
  | Event.other => s

/-- The nested `base::RunLoop` driven by `MessageDialog::Dispatch`: each
event is handled, then the loop continues while `Dispatch` returns `true`
(i.e. while `should_close_` is still `false`).  `none` means the event
stream ran out with the dialog still open — the real loop would still be
blocking, so `ShowMessageBox` has not returned. -/
def runLoop (btns : List LabelButton) (s : DialogState) : List Event → Option DialogState
  | [] => none
  | e :: es =>
      let s2 := handleEvent btns s e
      if s2.should_close_ then some s2 else runLoop btns s2 es

/-- The loop
`for (size_t i = 0; i < buttons.size(); ++i) if (LowerCaseEqualsASCII(buttons[i], "cancel")) return i;`
in `ShowMessageBox`, with the running index threaded explicitly. -/
def cancelIndexAux : List String → Nat → Option Nat
  | [], _ => none
  | b :: rest, i =>
      if lowerCaseEqualsASCII b "cancel" then some i else cancelIndexAux rest (i + 1)

/-- Index of the first button labelled (case-insensitively) `cancel`. -/
def cancelIndex (buttons : List String) : Option Nat :=
  cancelIndexAux buttons 0

/-- `ShowMessageBox`.  Besides the six C++ parameters it takes the stream
of native events the nested loop will dispatch.  Returns `none` when the
constructor would index `buttons_[0]` out of bounds (empty button list,
guarded by a `DCHECK` in the source) or when the loop never observed a
dismissal; otherwise the returned `int`. -/
def showMessageBox (parent_window : Option Nat) (type_ : MessageBoxType)
    (buttons : List String) (title message detail : String)
    (events : List Event) : Option Int :=
  if buttons.isEmpty then none
  else
    match runLoop (dialogButtons buttons) dialogInit events with
    | none => none
    | some s =>
        some (if s.result_ = -1 then
                match cancelIndex buttons with
                | some i => (i : Int)
                | none => 0
              else s.result_)

/-! ## atom_api_power_monitor.cc -/

/-- A power callback delivered by `base::PowerMonitor` to its observer:
`OnPowerStateChange(bool)`, `OnSuspend()` or `OnResume()`. -/
inductive PowerCallback where
  | powerStateChange (on_battery_power : Bool)
  | suspendCallback
  | resumeCallback
deriving DecidableEq

/-- `PowerMonitor::OnPowerStateChange`: emits `on-battery` when on battery
power, `on-ac` otherwise.  The result is the list of event names passed to
`Emit`. -/
def onPowerStateChange (on_battery_power : Bool) : List String :=
  if on_battery_power then ["on-battery"] else ["on-ac"]

/-- `PowerMonitor::OnSuspend`: emits `suspend`. -/
def onSuspend : List String :=
  ["suspend"]

/-- `PowerMonitor::OnResume`: emits `resume`. -/
def onResume : List String :=
  ["resume"]

/-- Virtual dispatch of one observer callback to its handler. -/
def dispatchPowerCallback : PowerCallback → List String
  | PowerCallback.powerStateChange b => onPowerStateChange b
  | PowerCallback.suspendCallback => onSuspend
  | PowerCallback.resumeCallback => onResume

/-- Modelled from the spec: the observer registry of the OS power-monitor
source (`base::PowerMonitor`, outside this fragment) — "a single observer
registration"; `AddObserver` appends the observer to the list. -/
def addObserver (observers : List Nat) (o : Nat) : List Nat :=
  observers ++ [o]

/-- Modelled from the spec: `RemoveObserver` removes that same observer's
registration from the list. -/
def removeObserver (observers : List Nat) (o : Nat) : List Nat :=
  observers.erase o

/-- `PowerMonitor::PowerMonitor()`:
`base::PowerMonitor::Get()->AddObserver(this);`. -/
def powerMonitorConstruct (observers : List Nat) (self : Nat) : List Nat :=
  addObserver observers self

/-- `PowerMonitor::~PowerMonitor()`:
`base::PowerMonitor::Get()->RemoveObserver(this);`. -/
def powerMonitorDestruct (observers : List Nat) (self : Nat) : List Nat :=
  removeObserver observers self

/-- The value `PowerMonitor::Create` hands back to V8: `v8::Null` or a
wrapped `new PowerMonitor` handle. -/
inductive CreateOutcome where
  | nullValue
  | handle (pm : Nat)
deriving DecidableEq

/-- The message given to `node::ThrowError` in `PowerMonitor::Create`. -/
def powerMonitorCreateErrorMessage : String :=
  "Cannot initialize \"power-monitor\" module before app is ready"

/-- `PowerMonitor::Create`: if the browser is not ready, throw (second
component: the raised error) and return null; otherwise return a handle
to a fresh `PowerMonitor` and raise nothing. -/
def powerMonitorCreate (is_ready : Bool) : CreateOutcome × Option String :=
  if !is_ready then
    (CreateOutcome.nullValue, some powerMonitorCreateErrorMessage)
  else
    (CreateOutcome.handle 0, none)

/-! ## Helper lemmas -/

theorem mkButtonsAux_get? (ls : List String) (n i : Nat) :
    (mkButtonsAux n ls).get? i = (ls.get? i).map (fun l => ⟨n + i, l, false⟩) := by
  induction ls generalizing n i with
  | nil => simp [mkButtonsAux]
  | cons l ls ih =>
      cases i with
      | zero => simp [mkButtonsAux]
      | succ j =>
          simp only [mkButtonsAux, List.get?]
          rw [ih]
          cases ls.get? j <;> simp [Nat.add_assoc, Nat.add_comm 1 j]

theorem dialogButtons_get? (buttons : List String) (i : Nat) :
    (dialogButtons buttons).get? i =
      (buttons.get? i).map (fun l => ⟨i, l, i == 0⟩) := by
  cases buttons with
  | nil => simp [dialogButtons, mkButtons, mkButtonsAux]
  | cons l ls =>
      cases i with
      | zero => simp [dialogButtons, mkButtons, mkButtonsAux]
      | succ j =>
          simp only [dialogButtons, mkButtons, mkButtonsAux, List.get?]
          rw [mkButtonsAux_get?]
          cases ls.get? j <;> simp [Nat.add_comm 1 j]

theorem dialogButtons_length (buttons : List String) :
    (dialogButtons buttons).length = buttons.length := by
  have haux : ∀ (ls : List String) (n : Nat), (mkButtonsAux n ls).length = ls.length := by
    intro ls
    induction ls with
    | nil => intro n; simp [mkButtonsAux]
    | cons l ls ih => intro n; simp [mkButtonsAux, ih]
  cases buttons with
  | nil => simp [dialogButtons, mkButtons, mkButtonsAux]
  | cons l ls => simp [dialogButtons, mkButtons, mkButtonsAux, haux]

theorem handleEvent_of_not_closing (btns : List LabelButton) (s : DialogState)
    (e : Event) (h : isClosingEvent btns e = false) :
    handleEvent btns s e = s := by
  cases e with
  | pressButton i =>
      simp only [isClosingEvent] at h
      cases hg : btns.get? i with
      | none =>
          have hg2 : btns[i]? = none := by rw [← List.get?_eq_getElem?]; exact hg
          simp [handleEvent, hg, hg2]
      | some b => rw [hg] at h; simp at h
  | closeWindow => simp [isClosingEvent] at h
  | other => rfl

theorem runLoop_skip (btns : List LabelButton) (es2 : List Event) :
    ∀ (es1 : List Event) (s : DialogState), s.should_close_ = false →
      (∀ e ∈ es1, isClosingEvent btns e = false) →
      runLoop btns s (es1 ++ es2) = runLoop btns s es2 := by
  intro es1
  induction es1 with
  | nil => intro s _ _; rfl
  | cons e es ih =>
      intro s hs hall
      have he : isClosingEvent btns e = false := hall e (by simp)
      have hstep : handleEvent btns s e = s := handleEvent_of_not_closing btns s e he
      rw [List.cons_append]
      simp only [runLoop, hstep, hs]
      rw [if_neg (by decide)]
      exact ih s hs (fun e' h' => hall e' (by simp [h']))

theorem cancelIndexAux_lt (ls : List String) :
    ∀ (i j : Nat), cancelIndexAux ls i = some j → j < i + ls.length := by
  induction ls with
  | nil => intro i j h; simp [cancelIndexAux] at h
  | cons b rest ih =>
      intro i j h
      simp only [cancelIndexAux] at h
      by_cases hc : lowerCaseEqualsASCII b "cancel" = true
      · rw [if_pos hc] at h
        cases h
        simp [Nat.lt_add_of_pos_right]
      · rw [if_neg hc] at h
        have := ih (i + 1) j h
        simp [List.length_cons] at this ⊢
        omega

theorem runLoop_result_ok (n : Nat) (btns : List LabelButton)
    (hb : ∀ (i : Nat) (b : LabelButton), btns.get? i = some b → b.tag < n) :
    ∀ (es : List Event) (s s2 : DialogState),
      (s.result_ = -1 ∨ (0 ≤ s.result_ ∧ s.result_ < (n : Int))) →
      runLoop btns s es = some s2 →
      (s2.result_ = -1 ∨ (0 ≤ s2.result_ ∧ s2.result_ < (n : Int))) := by
  intro es
  induction es with
  | nil => intro s s2 _ h; simp [runLoop] at h
  | cons e es ih =>
      intro s s2 hs h
      have hstep : (handleEvent btns s e).result_ = -1 ∨
          (0 ≤ (handleEvent btns s e).result_ ∧
            (handleEvent btns s e).result_ < (n : Int)) := by
        cases e with
        | pressButton i =>
            simp only [handleEvent]
            cases hg : btns.get? i with
            | none => exact hs
            | some b =>
                have := hb i b hg
                right
                simp [windowClosing, buttonPressed]
                omega
        | closeWindow => exact hs
        | other => exact hs
      simp only [runLoop] at h
      by_cases hcl : (handleEvent btns s e).should_close_ = true
      · rw [if_pos hcl] at h
        cases h
        exact hstep
      · rw [if_neg hcl] at h
        exact ih (handleEvent btns s e) s2 hstep h

theorem runLoop_closes (btns : List LabelButton) :
    ∀ (es : List Event) (s s2 : DialogState), s.should_close_ = false →
      runLoop btns s es = some s2 →
      s2.should_close_ = true ∧ ∃ e ∈ es, isClosingEvent btns e = true := by
  intro es
  induction es with
  | nil => intro s s2 _ h; simp [runLoop] at h
  | cons e es ih =>
      intro s s2 hs h
      simp only [runLoop] at h
      by_cases hcl : (handleEvent btns s e).should_close_ = true
      · rw [if_pos hcl] at h
        cases h
        refine ⟨hcl, e, by simp, ?_⟩
        by_contra hne
        have : handleEvent btns s e = s :=
          handleEvent_of_not_closing btns s e (by simpa using hne)
        rw [this] at hcl
        rw [hs] at hcl
        exact absurd hcl (by decide)
      · rw [if_neg hcl] at h
        have hs2 : (handleEvent btns s e).should_close_ = false := by
          simpa using hcl
        obtain ⟨h1, e', he', h2⟩ := ih (handleEvent btns s e) s2 hs2 h
        exact ⟨h1, e', by simp [he'], h2⟩

theorem runLoop_none_of_no_closing (btns : List LabelButton) :
    ∀ (es : List Event) (s : DialogState), s.should_close_ = false →
      (∀ e ∈ es, isClosingEvent btns e = false) →
      runLoop btns s es = none := by
  intro es
  induction es with
  | nil => intro s _ _; rfl
  | cons e es ih =>
      intro s hs hall
      have he : isClosingEvent btns e = false := hall e (by simp)
      have hstep : handleEvent btns s e = s := handleEvent_of_not_closing btns s e he
      simp only [runLoop, hstep, hs]
      rw [if_neg (by decide)]
      exact ih s hs (fun e' h' => hall e' (by simp [h']))

/-! ## Claim theorems -/

/-- Claim C1: for every call to `ShowMessageBox` in which the user presses a
button (dispatching any non-closing events first, then a click on button
`i` of the dialog), the returned value equals the zero-based position `i`
of that button in the input label list, regardless of the other
arguments. -/
theorem showMessageBox_button_press (parent : Option Nat) (t : MessageBoxType)
    (buttons : List String) (title message detail : String)
    (es1 : List Event) (i : Nat)
    (hns : ∀ e ∈ es1, isClosingEvent (dialogButtons buttons) e = false)
    (hi : i < buttons.length) :
    showMessageBox parent t buttons title message detail
      (es1 ++ [Event.pressButton i]) = some (i : Int) := by
  have hne : buttons.isEmpty = false := by
    cases buttons with
    | nil => simp at hi
    | cons l ls => rfl
  have hl : buttons.get? i = some (buttons.get ⟨i, hi⟩) := List.get?_eq_get hi
  have hbtn : (dialogButtons buttons).get? i =
      some ⟨i, buttons.get ⟨i, hi⟩, i == 0⟩ := by
    rw [dialogButtons_get?, hl]
    rfl
  have hskip : runLoop (dialogButtons buttons) dialogInit
      (es1 ++ [Event.pressButton i]) =
      runLoop (dialogButtons buttons) dialogInit [Event.pressButton i] :=
    runLoop_skip (dialogButtons buttons) [Event.pressButton i] es1 dialogInit rfl hns
  have hloop : runLoop (dialogButtons buttons) dialogInit [Event.pressButton i] =
      some ⟨true, (i : Int)⟩ := by
    simp only [runLoop, handleEvent, hbtn, windowClosing, buttonPressed, dialogInit]
    simp
  simp only [showMessageBox, hne, Bool.false_eq_true, if_false, hskip, hloop]
  rw [if_neg (by omega)]

/-- Claim C2: for every call to `ShowMessageBox` dismissed without any
button press (only non-closing events, then the window is closed), the
returned value equals the index of the first button labelled `cancel`
under case-insensitive comparison if such a button is present, and `0`
otherwise. -/
theorem showMessageBox_dismissed (parent : Option Nat) (t : MessageBoxType)
    (buttons : List String) (title message detail : String)
    (es1 : List Event)
    (hne : buttons ≠ [])
    (hns : ∀ e ∈ es1, isClosingEvent (dialogButtons buttons) e = false) :
    showMessageBox parent t buttons title message detail
      (es1 ++ [Event.closeWindow]) =
      some (match cancelIndex buttons with
            | some i => (i : Int)
            | none => 0) := by
  have hne2 : buttons.isEmpty = false := by
    cases buttons with
    | nil => exact absurd rfl hne
    | cons l ls => rfl
  have hskip : runLoop (dialogButtons buttons) dialogInit
      (es1 ++ [Event.closeWindow]) =
      runLoop (dialogButtons buttons) dialogInit [Event.closeWindow] :=
    runLoop_skip (dialogButtons buttons) [Event.closeWindow] es1 dialogInit rfl hns
  have hloop : runLoop (dialogButtons buttons) dialogInit [Event.closeWindow] =
      some ⟨true, -1⟩ := by
    simp only [runLoop, handleEvent, windowClosing, dialogInit]
    simp
  simp only [showMessageBox, hne2, Bool.false_eq_true, if_false, hskip, hloop]
  simp

/-- Witness for C2 at a concrete input: two buttons `Yes`/`Cancel`, the
window closed without a press; the result is index `1`, the button whose
lowercased label is `cancel`. -/
theorem showMessageBox_dismissed_witness :
    (["Yes", "Cancel"] : List String) ≠ [] ∧
    showMessageBox none (MessageBoxType.typeCode 0) ["Yes", "Cancel"]
      "t" "m" "d" ([] ++ [Event.closeWindow]) =
      some (match cancelIndex ["Yes", "Cancel"] with
            | some i => (i : Int)
            | none => 0) :=
  ⟨by decide,
   showMessageBox_dismissed none (MessageBoxType.typeCode 0) ["Yes", "Cancel"]
     "t" "m" "d" [] (by decide) (by decide)⟩

/-- Witness for C1 at a concrete input: two buttons, a non-closing event
and then a click on button `1`; the call returns `1`. -/
theorem showMessageBox_button_press_witness :
    (∀ e ∈ ([Event.other] : List Event),
        isClosingEvent (dialogButtons ["No", "Yes"]) e = false) ∧
    1 < (["No", "Yes"] : List String).length ∧
    showMessageBox none (MessageBoxType.typeCode 0) ["No", "Yes"] "t" "m" "d"
      ([Event.other] ++ [Event.pressButton 1]) = some (1 : Int) :=
  ⟨by decide, by decide,
   showMessageBox_button_press none (MessageBoxType.typeCode 0) ["No", "Yes"]
     "t" "m" "d" [Event.other] 1 (by decide) (by decide)⟩

/-- Claim C3: each power callback maps 1:1 to exactly one emitted event —
battery-power transition to `on-battery`, AC transition to `on-ac`,
suspend to `suspend`, resume to `resume` — and every callback emits
exactly one event, so none emits any other event. -/
theorem powerCallbackEventMap :
    (∀ b : Bool, dispatchPowerCallback (PowerCallback.powerStateChange b) =
        [if b then "on-battery" else "on-ac"]) ∧
    dispatchPowerCallback PowerCallback.suspendCallback = ["suspend"] ∧
    dispatchPowerCallback PowerCallback.resumeCallback = ["resume"] ∧
    (∀ cb : PowerCallback, (dispatchPowerCallback cb).length = 1) := by
  refine ⟨?_, rfl, rfl, ?_⟩
  · intro b
    cases b <;> rfl
  · intro cb
    cases cb with
    | powerStateChange b => cases b <;> rfl
    | suspendCallback => rfl
    | resumeCallback => rfl

/-- Claim C4: calling `PowerMonitor::Create` before the application is
ready raises the error and returns null (no usable object); calling it
once the application is ready returns a usable handle and raises no
error. -/
theorem powerMonitorCreateReadiness :
    powerMonitorCreate false =
      (CreateOutcome.nullValue, some powerMonitorCreateErrorMessage) ∧
    powerMonitorCreate true = (CreateOutcome.handle 0, none) :=
  ⟨rfl, rfl⟩

/-- Claim C5: the nested loop never ends before dismissal — `Dispatch`
returns `true` in every state where `should_close_` is `false`; if the
loop returns a state, that state has `should_close_ = true` and some
dispatched event triggered `WindowClosing` (a press of an existing button
or closing the window); and when no such event is dispatched the loop
never returns. -/
theorem dialogLoopBlocksUntilDismissal (btns : List LabelButton)
    (es : List Event) (s2 : DialogState) :
    (∀ s : DialogState, s.should_close_ = false → dispatch s = true) ∧
    (runLoop btns dialogInit es = some s2 →
      s2.should_close_ = true ∧ ∃ e ∈ es, isClosingEvent btns e = true) ∧
    ((∀ e ∈ es, isClosingEvent btns e = false) →
      runLoop btns dialogInit es = none) := by
  refine ⟨?_, ?_, ?_⟩
  · intro s hs
    simp [dispatch, hs]
  · intro h
    exact runLoop_closes btns es dialogInit s2 rfl h
  · intro h
    exact runLoop_none_of_no_closing btns es dialogInit rfl h

/-- Witness for C5 at concrete inputs: closing the window ends the loop in
a closed state reached through `WindowClosing`, while a stream of only
neutral events leaves the loop running. -/
theorem dialogLoopBlocksUntilDismissal_witness :
    dispatch dialogInit = true ∧
    ((⟨true, -1⟩ : DialogState).should_close_ = true ∧
      ∃ e ∈ [Event.closeWindow],
        isClosingEvent (dialogButtons ["OK"]) e = true) ∧
    runLoop (dialogButtons ["OK"]) dialogInit [Event.other] = none :=
  ⟨(dialogLoopBlocksUntilDismissal (dialogButtons ["OK"]) [Event.closeWindow]
      ⟨true, -1⟩).1 dialogInit rfl,
   (dialogLoopBlocksUntilDismissal (dialogButtons ["OK"]) [Event.closeWindow]
      ⟨true, -1⟩).2.1 (by decide),
   (dialogLoopBlocksUntilDismissal (dialogButtons ["OK"]) [Event.other]
      ⟨true, -1⟩).2.2 (by decide)⟩

/-- Claim C6: the power monitor holds exactly one observer registration
over its lifetime — construction adds it to the OS power-monitor observer
list (count one for a fresh object), destruction removes that same
registration, leaving none. -/
theorem powerMonitorObserverLifecycle (regs : List Nat) (o : Nat)
    (h : o ∉ regs) :
    (powerMonitorConstruct regs o).count o = 1 ∧
    o ∉ powerMonitorDestruct (powerMonitorConstruct regs o) o := by
  constructor
  · simp [powerMonitorConstruct, addObserver, List.count_append,
      List.count_eq_zero.mpr h]
  · simp only [powerMonitorDestruct, powerMonitorConstruct, addObserver,
      removeObserver]
    rw [List.erase_append_right _ h]
    simp [h]

/-- Witness for C6 at a concrete input: a fresh observer on an empty
registry. -/
theorem powerMonitorObserverLifecycle_witness :
    (0 : Nat) ∉ ([] : List Nat) ∧
    (powerMonitorConstruct [] 0).count 0 = 1 ∧
    0 ∉ powerMonitorDestruct (powerMonitorConstruct [] 0) 0 :=
  ⟨by decide, powerMonitorObserverLifecycle [] 0 (by decide)⟩

/-- Claim C7: with a non-empty button list, every value `ShowMessageBox`
returns is a valid zero-based index into the list, on every dismissal
path (button press, cancel-labelled fallback, default-0 fallback). -/
theorem showMessageBoxResultInRange (parent : Option Nat) (t : MessageBoxType)
    (buttons : List String) (title message detail : String)
    (events : List Event) (r : Int)
    (hne : buttons ≠ [])
    (hres : showMessageBox parent t buttons title message detail events =
      some r) :
    0 ≤ r ∧ r < (buttons.length : Int) := by
  have hlen : 0 < buttons.length := List.length_pos.mpr hne
  have hne2 : buttons.isEmpty = false := by
    cases buttons with
    | nil => exact absurd rfl hne
    | cons l ls => rfl
  simp only [showMessageBox, hne2, Bool.false_eq_true, if_false] at hres
  cases hrl : runLoop (dialogButtons buttons) dialogInit events with
  | none => rw [hrl] at hres; simp at hres
  | some s =>
      rw [hrl] at hres
      have hb : ∀ (i : Nat) (b : LabelButton),
          (dialogButtons buttons).get? i = some b → b.tag < buttons.length := by
        intro i b hg
        rw [dialogButtons_get?] at hg
        cases hgb : buttons.get? i with
        | none => rw [hgb] at hg; simp at hg
        | some l =>
            rw [hgb] at hg
            have hi : i < buttons.length := by
              have := List.get?_eq_some.mp hgb
              exact this.1
            have hg2 : (⟨i, l, i == 0⟩ : LabelButton) = b := Option.some.inj hg
            rw [← hg2]
            exact hi
      have hsres := runLoop_result_ok buttons.length (dialogButtons buttons)
        hb events dialogInit s (Or.inl rfl) hrl
      simp only [Option.some.injEq] at hres
      subst hres
      by_cases hm1 : s.result_ = -1
      · rw [if_pos hm1]
        cases hci : cancelIndex buttons with
        | none =>
            refine ⟨le_refl 0, ?_⟩
            show (0 : Int) < (buttons.length : Int)
            exact_mod_cast hlen
        | some j =>
            have hj : j < buttons.length := by
              have := cancelIndexAux_lt buttons 0 j hci
              omega
            refine ⟨Int.natCast_nonneg j, ?_⟩
            show (j : Int) < (buttons.length : Int)
            exact_mod_cast hj
      · rw [if_neg hm1]
        rcases hsres with h1 | h2
        · exact absurd h1 hm1
        · exact h2

/-- Witness for C7 at a concrete input: one button, pressed; the result
`0` is in range. -/
theorem showMessageBoxResultInRange_witness :
    (["OK"] : List String) ≠ [] ∧
    showMessageBox none (MessageBoxType.typeCode 0) ["OK"] "t" "m" "d"
      [Event.pressButton 0] = some 0 ∧
    (0 : Int) ≤ 0 ∧ (0 : Int) < ((["OK"] : List String).length : Int) :=
  ⟨by decide, by decide,
   showMessageBoxResultInRange none (MessageBoxType.typeCode 0) ["OK"]
     "t" "m" "d" [Event.pressButton 0] 0 (by decide) (by decide)⟩

/-- Claim C8: under the non-empty precondition asserted by the
constructor's `DCHECK`, the unconditional `buttons_[0]` accesses are in
bounds: the check passes, `buttons_` is non-empty (so the out-of-bounds
branch is unreachable), the default flag lands on the button of tag `0`,
and `buttons_` has one button per label. -/
theorem messageDialogDefaultButtonInBounds (buttons : List String)
    (h : buttons ≠ []) :
    messageDialogDCheck buttons = true ∧
    ((mkButtons buttons).get? 0).isSome = true ∧
    (∃ b, (dialogButtons buttons).get? 0 = some b ∧
      b.is_default = true ∧ b.tag = 0) ∧
    (dialogButtons buttons).length = buttons.length := by
  cases buttons with
  | nil => exact absurd rfl h
  | cons l ls =>
      refine ⟨by simp [messageDialogDCheck], ?_, ?_, dialogButtons_length _⟩
      · rfl
      · exact ⟨⟨0, l, true⟩, rfl, rfl, rfl⟩

/-- Witness for C8 at a concrete input: the one-button list. -/
theorem messageDialogDefaultButtonInBounds_witness :
    (["OK"] : List String) ≠ [] ∧
    (messageDialogDCheck ["OK"] = true ∧
      ((mkButtons ["OK"]).get? 0).isSome = true ∧
      (∃ b, (dialogButtons ["OK"]).get? 0 = some b ∧
        b.is_default = true ∧ b.tag = 0) ∧
      (dialogButtons ["OK"]).length = (["OK"] : List String).length) :=
  ⟨by decide, messageDialogDefaultButtonInBounds ["OK"] (by decide)⟩

/-- Claim C9: the returned index is independent of the box type and the
detail string — two calls agreeing on everything else (including the
event stream, i.e. the user's action) return the same value. -/
theorem showMessageBoxIgnoresTypeAndDetail (parent : Option Nat)
    (t1 t2 : MessageBoxType) (buttons : List String)
    (title message : String) (d1 d2 : String) (events : List Event) :
    showMessageBox parent t1 buttons title message d1 events =
      showMessageBox parent t2 buttons title message d2 events :=
  rfl

end Electron
